import Mathlib

/-!
Verification development for the DeclutterAI single-page application
(source: src/src/App.tsx).

The app keeps all of its state in seven React `useState` cells; we embed
them as one record `AppState`.  The two orchestrators (`processImage`,
`handleSendMessage`) are async functions whose only effects are the
state updates and the calls to the external AI service; we embed them as
pure state transformers parameterised by the outcome of the external
calls (an `Except Unit _` value: `ok` for a resolved promise, `error`
for a thrown/rejected one).  Nondeterministic inputs of the source
(`Math.random().toString(36).substring(7)`, `Date.now()`,
`URL.createObjectURL`) are passed in as environment fields.

String operations mirror the JavaScript ones over the ASCII range
(`String.prototype.trim`, the regex `/Room Type:\s*(.*)/i`, and the
falsy-coalescing `||` for which the empty string is falsy).
-/

namespace DeclutterAI

/-- JS whitespace class `\s` (ASCII part: space, tab, LF, VT, FF, CR). -/
def isJsWhitespace (c : Char) : Bool :=
  c = ' ' || c = '\t' || c = '\n' || c = '\r' || c = Char.ofNat 11 || c = Char.ofNat 12

/-- JS line terminators that `.` in a regex does not match
(LF, CR, and U+2028/U+2029). -/
def isLineTerm (c : Char) : Bool :=
  c = '\n' || c = '\r' || c = Char.ofNat 8232 || c = Char.ofNat 8233

/-- Drop JS whitespace from both ends of a char list
(`String.prototype.trim`). -/
def trimChars (cs : List Char) : List Char :=
  ((cs.dropWhile isJsWhitespace).reverse.dropWhile isJsWhitespace).reverse

/-- `String.prototype.trim` on a string. -/
def jsTrim (s : String) : String :=
  String.mk (trimChars s.data)

/-- JS `t || d` where `t` is an optional string: `undefined` and the
empty string are falsy and give the default `d`
(models `response.text || "..."` at App.tsx:102 and App.tsx:171). -/
def jsOr (t : Option String) (d : String) : String :=
  match t with
  | none => d
  | some x => if x = "" then d else x

/-- Try to strip `pat` (already lowercase) from the front of `cs`,
comparing case-insensitively; return the remainder on success. -/
def dropMatch : List Char → List Char → Option (List Char)
  | [], cs => some cs
  | _ :: _, [] => none
  | p :: ps, c :: cs => if c.toLower = p then dropMatch ps cs else none

/-- Leftmost occurrence of `pat` (lowercase, case-insensitive match) in
the text; returns the characters after the matched occurrence. -/
def findPat (pat : List Char) : List Char → Option (List Char)
  | [] => dropMatch pat []
  | c :: cs =>
    match dropMatch pat (c :: cs) with
    | some rest => some rest
    | none => findPat pat cs

/-- The literal part of the regex `/Room Type:\s*(.*)/i`, lowercased. -/
def roomTypePat : List Char := "room type:".data

/-- `resultText.match(/Room Type:\s*(.*)/i)` followed by
`match ? match[1].trim() : "Unknown Room"` (App.tsx:103-104):
find the first occurrence of `Room Type:` case-insensitively anywhere
in the text, greedily skip whitespace (`\s*`, which may cross line
breaks), capture up to the end of the line (`.` excludes line
terminators), and trim the capture. -/
def extractRoomType (text : String) : String :=
  match findPat roomTypePat text.data with
  | none => "Unknown Room"
  | some rest =>
    String.mk (trimChars ((rest.dropWhile isJsWhitespace).takeWhile (fun c => !isLineTerm c)))

/-- The spec reads the parser as matching only "a line beginning
`Room Type:`" (case-insensitive), taking the remainder of that line.
This definition follows those words, for comparison with
`extractRoomType` above which embeds the source regex. -/
def splitLineList : List Char → List (List Char)
  | [] => [[]]
  | c :: cs =>
    if isLineTerm c then [] :: splitLineList cs
    else
      match splitLineList cs with
      | [] => [[c]]
      | l :: ls => (c :: l) :: ls

/-- Case-insensitive "begins with" (pattern already lowercase). -/
def beginsWithCI : List Char → List Char → Bool
  | [], _ => true
  | _ :: _, [] => false
  | p :: ps, c :: cs => (c.toLower = p) && beginsWithCI ps cs

/-- Modelled from the spec sentence for C5: parse the response text for
a LINE BEGINNING `Room Type:` (case-insensitive); the room type is the
remainder of that line, trimmed; otherwise the sentinel. -/
def specRoomTypeLine (text : String) : String :=
  match (splitLineList text.data).find? (fun l => beginsWithCI roomTypePat l) with
  | some l => String.mk (trimChars (l.drop roomTypePat.length))
  | none => "Unknown Room"

-- --- Data model (App.tsx:33-44) ---

inductive Role where
  | user : Role
  | model : Role
deriving DecidableEq, Repr

structure AnalysisResult where
  id : String
  imageUrl : String
  timestamp : Nat
  suggestions : String
  roomType : String
deriving DecidableEq, Repr

structure ChatMessage where
  role : Role
  text : String
deriving DecidableEq, Repr

/-- The seven `useState` cells of `App` (App.tsx:51-57). -/
structure AppState where
  images : List AnalysisResult
  selectedImage : Option AnalysisResult
  isAnalyzing : Bool
  chatMessages : List ChatMessage
  inputMessage : String
  isChatting : Bool
  error : Option String
deriving DecidableEq, Repr

/-- Initial values of the `useState` cells. -/
def emptyState : AppState :=
  { images := [], selectedImage := none, isAnalyzing := false,
    chatMessages := [], inputMessage := "", isChatting := false,
    error := none }

def MODEL_NAME : String := "gemini-3.1-pro-preview"

-- --- Analysis Orchestrator: processImage (App.tsx:77-128) ---

instance instDecEqExcept {e a : Type} [DecidableEq e] [DecidableEq a] :
    DecidableEq (Except e a) := fun x y =>
  match x, y with
  | Except.ok u, Except.ok v =>
    if h : u = v then Decidable.isTrue (by rw [h])
    else Decidable.isFalse (fun he => h (by injection he))
  | Except.ok _, Except.error _ => Decidable.isFalse (fun he => Except.noConfusion he)
  | Except.error _, Except.ok _ => Decidable.isFalse (fun he => Except.noConfusion he)
  | Except.error u, Except.error v =>
    if h : u = v then Decidable.isTrue (by rw [h])
    else Decidable.isFalse (fun he => h (by injection he))

/-- Everything `processImage` consumes that comes from outside the
state: the outcome of `fileToBase64` (a promise that may reject), the
object URL for the file, the outcome of the `generateContent` call
(resolved response carrying the optional `response.text`, or a thrown
error), and the nondeterministic `Math.random()` id and `Date.now()`
timestamp. -/
structure AnalyzeEnv where
  encoded : Except Unit String
  imageUrl : String
  service : Except Unit (Option String)
  newId : String
  now : Nat
deriving DecidableEq, Repr

def analyzeErrorMsg : String :=
  "Failed to analyze image. Please check your API key and connection."

def noSuggestionsText : String := "No suggestions generated."

/-- The synthesized assistant greeting (App.tsx:118-120). -/
def greeting (roomType : String) : String :=
  "I\x27ve analyzed your " ++ roomType ++ ". How can I help you further with organizing this space?"

/-- `setIsAnalyzing(true); setError(null)` — the state on entry to
`processImage`, before the `try` block (App.tsx:78-79). -/
def analyzeBegin (s : AppState) : AppState :=
  { s with isAnalyzing := true, error := none }

/-- `processImage` (App.tsx:77-128).  The `try` body fails if either the
encoding promise or the service call rejects; the `catch` sets the
generic error message; the `finally` clears the busy flag on every
path.  On success one record is built, prepended to `images`, selected,
and the transcript is reset to the single greeting. -/
def processImage (env : AnalyzeEnv) (s : AppState) : AppState :=
  let s1 := analyzeBegin s
  match env.encoded with
  | Except.error _ => { s1 with error := some analyzeErrorMsg, isAnalyzing := false }
  | Except.ok _ =>
    match env.service with
    | Except.error _ => { s1 with error := some analyzeErrorMsg, isAnalyzing := false }
    | Except.ok t =>
      let resultText := jsOr t noSuggestionsText
      let roomType := extractRoomType resultText
      let newResult : AnalysisResult :=
        { id := env.newId, imageUrl := env.imageUrl, timestamp := env.now,
          suggestions := resultText, roomType := roomType }
      { s1 with
          images := newResult :: s1.images,
          selectedImage := some newResult,
          chatMessages := [{ role := Role.model, text := greeting roomType }],
          isAnalyzing := false }

-- --- Conversation Orchestrator: handleSendMessage (App.tsx:139-178) ---

def emptyReplyFallback : String := "I\x27m sorry, I couldn\x27t process that."

def chatErrorFallback : String := "Sorry, I encountered an error. Please try again."

/-- The `systemInstruction` built at App.tsx:151-153 from the currently
selected record (or the generic persona when none is selected). -/
def mkSystemFraming (sel : Option AnalysisResult) : String :=
  match sel with
  | some img =>
    "You are an expert interior organizer. You are currently helping the user with their "
      ++ img.roomType ++ ". Use the previous analysis as context: " ++ img.suggestions
  | none => "You are an expert interior organizer. Help the user declutter and organize their home."

/-- The two calls `handleSendMessage` makes to the AI client:
`ai.chats.create` (App.tsx:148-155), whose returned `chat` object is
never used afterwards, and `ai.models.generateContent`
(App.tsx:163-169), which is passed only `model` and `contents` — no
`config`, hence no system instruction (`none`). -/
structure ChatCalls where
  chatsCreateSystemInstruction : String
  generateContentModel : String
  generateContentContents : List ChatMessage
  generateContentSystemInstruction : Option String
deriving DecidableEq, Repr

/-- The optimistic phase of `handleSendMessage` (App.tsx:142-145):
clear the input box, append the trimmed user message, raise the chat
busy flag.  These mutations are visible before the service resolves. -/
def sendBegin (s : AppState) : AppState :=
  { s with
      inputMessage := "",
      chatMessages := s.chatMessages ++ [{ role := Role.user, text := jsTrim s.inputMessage }],
      isChatting := true }

/-- `handleSendMessage` (App.tsx:139-178), parameterised by the outcome
of the `generateContent` call.  Returns the new state together with the
calls issued to the AI client (`none` when the guard at App.tsx:140
makes the handler a no-op).  The history sent is the closure value
`chatMessages` — the transcript BEFORE the optimistic user append —
with the new user message as the final turn. -/
def handleSendMessage (svc : Except Unit (Option String)) (s : AppState) :
    AppState × Option ChatCalls :=
  if jsTrim s.inputMessage = "" || s.isChatting then (s, none)
  else
    let userMsg := jsTrim s.inputMessage
    let s1 := sendBegin s
    let calls : ChatCalls :=
      { chatsCreateSystemInstruction := mkSystemFraming s.selectedImage,
        generateContentModel := MODEL_NAME,
        generateContentContents := s.chatMessages ++ [{ role := Role.user, text := userMsg }],
        generateContentSystemInstruction := none }
    match svc with
    | Except.ok t =>
      ({ s1 with
           chatMessages := s1.chatMessages ++ [{ role := Role.model, text := jsOr t emptyReplyFallback }],
           isChatting := false }, some calls)
    | Except.error _ =>
      ({ s1 with
           chatMessages := s1.chatMessages ++ [{ role := Role.model, text := chatErrorFallback }],
           isChatting := false }, some calls)

-- --- Gallery management (App.tsx:180-187, 245) ---

/-- The gallery tile click handler `onClick={() => setSelectedImage(img)}`
(App.tsx:245).  It only sets the selection; no other state cell is
touched. -/
def selectRecord (img : AnalysisResult) (s : AppState) : AppState :=
  { s with selectedImage := some img }

/-- `deleteImage` (App.tsx:180-187): filter the record out of the
gallery; when the selected record has the deleted id, clear the
selection and the transcript. -/
def deleteImage (id : String) (s : AppState) : AppState :=
  let s1 := { s with images := s.images.filter (fun img => img.id ≠ id) }
  match s.selectedImage with
  | some sel =>
    if sel.id = id then { s1 with selectedImage := none, chatMessages := [] } else s1
  | none => s1

/-- A whole-session sequence of analyses: fold `processImage` over the
outcomes of successive uploads, starting from the initial state. -/
def analyzeRun (envs : List AnalyzeEnv) : AppState :=
  envs.foldl (fun s e => processImage e s) emptyState

/-- The ids present in the gallery. -/
def galleryIds (s : AppState) : List String :=
  s.images.map (fun r => r.id)

-- --- Theorems ---

/-- Claim C1: for every successful analyze call, exactly one new record
is prepended to the front of the gallery, that record becomes selected,
and the transcript is reset to exactly one assistant message whose text
references the record's room type. -/
theorem analyze_success_prepends_selects_greets
    (env : AnalyzeEnv) (s : AppState) (b : String) (t : Option String)
    (he : env.encoded = Except.ok b) (hs : env.service = Except.ok t) :
    ∃ r : AnalysisResult,
      (processImage env s).images = r :: s.images ∧
      (processImage env s).selectedImage = some r ∧
      (processImage env s).chatMessages = [{ role := Role.model, text := greeting r.roomType }] ∧
      ∃ pre suf, greeting r.roomType = pre ++ r.roomType ++ suf := by
  refine ⟨{ id := env.newId, imageUrl := env.imageUrl, timestamp := env.now,
            suggestions := jsOr t noSuggestionsText,
            roomType := extractRoomType (jsOr t noSuggestionsText) }, ?_, ?_, ?_,
          "I\x27ve analyzed your ",
          ". How can I help you further with organizing this space?", rfl⟩
  · simp [processImage, analyzeBegin, he, hs]
  · simp [processImage, analyzeBegin, he, hs]
  · simp [processImage, analyzeBegin, he, hs]

def envC1 : AnalyzeEnv :=
  { encoded := Except.ok "b64", imageUrl := "blob:1",
    service := Except.ok (some "Room Type: Bedroom\n\nSuggestions:\n- Use under-bed storage"),
    newId := "id1", now := 7 }

theorem analyze_success_prepends_selects_greets_w :
    ∃ r : AnalysisResult,
      (processImage envC1 emptyState).images = r :: emptyState.images ∧
      (processImage envC1 emptyState).selectedImage = some r ∧
      (processImage envC1 emptyState).chatMessages
        = [{ role := Role.model, text := greeting r.roomType }] ∧
      ∃ pre suf, greeting r.roomType = pre ++ r.roomType ++ suf :=
  analyze_success_prepends_selects_greets envC1 emptyState "b64"
    (some "Room Type: Bedroom\n\nSuggestions:\n- Use under-bed storage") rfl rfl

/-- Claim C2: when encoding or the service call fails, the gallery, the
selection and the transcript are unchanged, and a non-empty error
message is set. -/
theorem analyze_failure_preserves_state_sets_error
    (env : AnalyzeEnv) (s : AppState)
    (h : env.encoded = Except.error () ∨ env.service = Except.error ()) :
    (processImage env s).images = s.images ∧
    (processImage env s).selectedImage = s.selectedImage ∧
    (processImage env s).chatMessages = s.chatMessages ∧
    ∃ m, (processImage env s).error = some m ∧ m ≠ "" := by
  have key : processImage env s =
      { s with isAnalyzing := false, error := some analyzeErrorMsg } := by
    cases he : env.encoded with
    | error u => simp [processImage, analyzeBegin, he]
    | ok b =>
      cases hs : env.service with
      | error u => simp [processImage, analyzeBegin, he, hs]
      | ok t =>
        exfalso
        rcases h with h1 | h2
        · rw [he] at h1; exact Except.noConfusion h1
        · rw [hs] at h2; exact Except.noConfusion h2
  rw [key]
  exact ⟨rfl, rfl, rfl, analyzeErrorMsg, rfl, by decide⟩

def envC2 : AnalyzeEnv :=
  { encoded := Except.ok "b64", imageUrl := "blob:2",
    service := Except.error (), newId := "id2", now := 8 }

theorem analyze_failure_preserves_state_sets_error_w :
    (processImage envC2 emptyState).images = emptyState.images ∧
    (processImage envC2 emptyState).selectedImage = emptyState.selectedImage ∧
    (processImage envC2 emptyState).chatMessages = emptyState.chatMessages ∧
    ∃ m, (processImage envC2 emptyState).error = some m ∧ m ≠ "" :=
  analyze_failure_preserves_state_sets_error envC2 emptyState (Or.inr rfl)

/-- Claim C7: the busy flag is raised on entry to `processImage` and is
false after the call on every exit path (encoding failure, service
failure, or success). -/
theorem busy_analyzing_released (env : AnalyzeEnv) (s : AppState) :
    (analyzeBegin s).isAnalyzing = true ∧ (processImage env s).isAnalyzing = false := by
  refine ⟨rfl, ?_⟩
  cases he : env.encoded with
  | error u => simp [processImage, analyzeBegin, he]
  | ok b =>
    cases hs : env.service with
    | error u => simp [processImage, analyzeBegin, he, hs]
    | ok t => simp [processImage, analyzeBegin, he, hs]

/-- Claim C10: a resolved service call with missing or empty response
text still succeeds: the new record carries the fixed fallback
suggestions text and the sentinel room type, and no error is set. -/
theorem empty_reply_still_succeeds
    (env : AnalyzeEnv) (s : AppState) (b : String) (t : Option String)
    (he : env.encoded = Except.ok b) (hs : env.service = Except.ok t)
    (ht : t = none ∨ t = some "") :
    ∃ r : AnalysisResult,
      (processImage env s).images = r :: s.images ∧
      (processImage env s).selectedImage = some r ∧
      r.suggestions = noSuggestionsText ∧
      r.roomType = "Unknown Room" ∧
      (processImage env s).error = none := by
  have hjs : jsOr t noSuggestionsText = noSuggestionsText := by
    rcases ht with h | h <;> subst h <;> decide
  have hrt : extractRoomType noSuggestionsText = "Unknown Room" := by decide
  refine ⟨{ id := env.newId, imageUrl := env.imageUrl, timestamp := env.now,
            suggestions := noSuggestionsText, roomType := "Unknown Room" }, ?_, ?_, rfl, rfl, ?_⟩
  · simp [processImage, analyzeBegin, he, hs, hjs, hrt]
  · simp [processImage, analyzeBegin, he, hs, hjs, hrt]
  · simp [processImage, analyzeBegin, he, hs]

/-- Claim C5 counterexample input: the phrase `Room Type:` occurs only
in the middle of a line, so no line begins with it. -/
def envC5 : AnalyzeEnv :=
  { encoded := Except.ok "b64", imageUrl := "blob:4",
    service := Except.ok (some "The Room Type: Den"), newId := "id4", now := 10 }

/-- Claim C5 counterexample: the claim reads the parser as matching only
a LINE BEGINNING `Room Type:` (sentinel otherwise).  On the response
text `"The Room Type: Den"` no line begins with `Room Type:` — the
spec-worded parser yields the sentinel — yet the code's regex matches
the phrase mid-line and sets the room type to `"Den"`. -/
theorem roomtype_midline_match_cex :
    (processImage envC5 emptyState).selectedImage =
      some { id := "id4", imageUrl := "blob:4", timestamp := 10,
             suggestions := "The Room Type: Den", roomType := "Den" } ∧
    specRoomTypeLine "The Room Type: Den" = "Unknown Room" := by
  exact ⟨by decide, by decide⟩

/-- Claim C5 (amended): on a successful analyze call the response text
is searched case-insensitively for the first occurrence of `Room Type:`
anywhere (not only at the start of a line); the room type is the rest
of that line after the greedily skipped whitespace, trimmed; when the
phrase occurs nowhere the sentinel `Unknown Room` is used and the
analysis still succeeds (record created and selected, no error). -/
theorem analyze_roomtype_extraction
    (env : AnalyzeEnv) (s : AppState) (b : String) (t : Option String)
    (he : env.encoded = Except.ok b) (hs : env.service = Except.ok t) :
    ∃ r : AnalysisResult,
      (processImage env s).selectedImage = some r ∧
      (processImage env s).images = r :: s.images ∧
      (processImage env s).error = none ∧
      r.roomType = extractRoomType (jsOr t noSuggestionsText) ∧
      (findPat roomTypePat (jsOr t noSuggestionsText).data = none →
        r.roomType = "Unknown Room") ∧
      (∀ rest, findPat roomTypePat (jsOr t noSuggestionsText).data = some rest →
        r.roomType =
          String.mk (trimChars
            ((rest.dropWhile isJsWhitespace).takeWhile (fun c => !isLineTerm c)))) := by
  refine ⟨{ id := env.newId, imageUrl := env.imageUrl, timestamp := env.now,
            suggestions := jsOr t noSuggestionsText,
            roomType := extractRoomType (jsOr t noSuggestionsText) }, ?_, ?_, ?_, rfl, ?_, ?_⟩
  · simp [processImage, analyzeBegin, he, hs]
  · simp [processImage, analyzeBegin, he, hs]
  · simp [processImage, analyzeBegin, he, hs]
  · intro hn; simp [extractRoomType, hn]
  · intro rest hr; simp [extractRoomType, hr]

theorem analyze_roomtype_extraction_w :
    ∃ r : AnalysisResult,
      (processImage envC1 emptyState).selectedImage = some r ∧
      (processImage envC1 emptyState).images = r :: emptyState.images ∧
      (processImage envC1 emptyState).error = none ∧
      r.roomType = extractRoomType (jsOr (some "Room Type: Bedroom\n\nSuggestions:\n- Use under-bed storage") noSuggestionsText) ∧
      (findPat roomTypePat (jsOr (some "Room Type: Bedroom\n\nSuggestions:\n- Use under-bed storage") noSuggestionsText).data = none →
        r.roomType = "Unknown Room") ∧
      (∀ rest, findPat roomTypePat (jsOr (some "Room Type: Bedroom\n\nSuggestions:\n- Use under-bed storage") noSuggestionsText).data = some rest →
        r.roomType =
          String.mk (trimChars
            ((rest.dropWhile isJsWhitespace).takeWhile (fun c => !isLineTerm c)))) :=
  analyze_roomtype_extraction envC1 emptyState "b64"
    (some "Room Type: Bedroom\n\nSuggestions:\n- Use under-bed storage") rfl rfl

/-- One analyze call either leaves the gallery unchanged (a failure) or
prepends a single record carrying the environment-supplied id. -/
theorem processImage_images (env : AnalyzeEnv) (s : AppState) :
    (processImage env s).images = s.images ∨
    ∃ r : AnalysisResult, (processImage env s).images = r :: s.images ∧ r.id = env.newId := by
  cases he : env.encoded with
  | error u => left; simp [processImage, analyzeBegin, he]
  | ok b =>
    cases hs : env.service with
    | error u => left; simp [processImage, analyzeBegin, he, hs]
    | ok t =>
      right
      refine ⟨{ id := env.newId, imageUrl := env.imageUrl, timestamp := env.now,
                suggestions := jsOr t noSuggestionsText,
                roomType := extractRoomType (jsOr t noSuggestionsText) }, ?_, rfl⟩
      simp [processImage, analyzeBegin, he, hs]

/-- Gallery ids stay duplicate-free as long as the ids fed in by the
environment are pairwise fresh. -/
theorem foldl_processImage_nodup :
    ∀ (envs : List AnalyzeEnv) (s : AppState),
      ((envs.map (fun e => e.newId)) ++ galleryIds s).Nodup →
      (galleryIds (envs.foldl (fun s e => processImage e s) s)).Nodup := by
  intro envs
  induction envs with
  | nil => intro s h; simpa using h
  | cons e es ih =>
    intro s h
    simp only [List.map_cons, List.cons_append, List.foldl_cons] at h ⊢
    rcases processImage_images e s with hsame | ⟨r, hcons, hid⟩
    · apply ih
      have h2 : (es.map (fun e => e.newId) ++ galleryIds s).Nodup := h.of_cons
      simpa [galleryIds, hsame] using h2
    · apply ih
      have hperm : (es.map (fun e => e.newId) ++ e.newId :: galleryIds s).Perm
          (e.newId :: (es.map (fun e => e.newId) ++ galleryIds s)) := List.perm_middle
      have h2 : (es.map (fun e => e.newId) ++ e.newId :: galleryIds s).Nodup :=
        hperm.nodup_iff.mpr h
      simpa [galleryIds, hcons, hid] using h2

/-- Two successful analyses whose environments happen to draw the same
random id (`Math.random()` is not collision-checked). -/
def envDupA : AnalyzeEnv :=
  { encoded := Except.ok "b64", imageUrl := "u1",
    service := Except.ok (some "Room Type: A"), newId := "dup", now := 1 }

def envDupB : AnalyzeEnv :=
  { encoded := Except.ok "b64", imageUrl := "u2",
    service := Except.ok (some "Room Type: A"), newId := "dup", now := 2 }

def recDupA : AnalysisResult :=
  { id := "dup", imageUrl := "u1", timestamp := 1,
    suggestions := "Room Type: A", roomType := "A" }

def recDupB : AnalysisResult :=
  { id := "dup", imageUrl := "u2", timestamp := 2,
    suggestions := "Room Type: A", roomType := "A" }

/-- Claim C9 counterexample: nothing in record creation prevents id
reuse — a session in which `Math.random().toString(36).substring(7)`
yields the same string twice creates two distinct records with equal
ids. -/
theorem duplicate_random_ids_cex :
    (analyzeRun [envDupA, envDupB]).images = [recDupB, recDupA] ∧
    recDupA ≠ recDupB ∧ recDupA.id = recDupB.id := by
  exact ⟨by decide, by decide, by decide⟩

/-- Claim C9 (amended): record ids are taken verbatim from the random
generator at creation; uniqueness holds exactly when the generated ids
are pairwise distinct — under that freshness assumption every pair of
records in the gallery has distinct ids. -/
theorem gallery_ids_nodup_of_fresh_ids
    (envs : List AnalyzeEnv)
    (h : (envs.map (fun e => e.newId)).Nodup) :
    (galleryIds (analyzeRun envs)).Nodup := by
  apply foldl_processImage_nodup
  simpa [galleryIds, emptyState] using h

theorem gallery_ids_nodup_of_fresh_ids_w :
    ([envC1, envC2].map (fun e => e.newId)).Nodup ∧
    (galleryIds (analyzeRun [envC1, envC2])).Nodup :=
  ⟨by decide, gallery_ids_nodup_of_fresh_ids [envC1, envC2] (by decide)⟩

def envC10 : AnalyzeEnv :=
  { encoded := Except.ok "b64", imageUrl := "blob:3",
    service := Except.ok (some ""), newId := "id3", now := 9 }

theorem empty_reply_still_succeeds_w :
    ∃ r : AnalysisResult,
      (processImage envC10 emptyState).images = r :: emptyState.images ∧
      (processImage envC10 emptyState).selectedImage = some r ∧
      r.suggestions = noSuggestionsText ∧
      r.roomType = "Unknown Room" ∧
      (processImage envC10 emptyState).error = none :=
  empty_reply_still_succeeds envC10 emptyState "b64" (some "") rfl rfl (Or.inr rfl)

/-- A gallery record for the spec's Kitchen scenario. -/
def recKitchen : AnalysisResult :=
  { id := "k1", imageUrl := "blob:k", timestamp := 5,
    suggestions := "Room Type: Kitchen\n\nSuggestions:\n- Hang the pots on a rail",
    roomType := "Kitchen" }

/-- Session state with the Kitchen record selected and a pending user
message in the input box. -/
def sKitchen : AppState :=
  { images := [recKitchen], selectedImage := some recKitchen, isAnalyzing := false,
    chatMessages := [{ role := Role.model, text := greeting "Kitchen" }],
    inputMessage := "Where should I put my pots?", isChatting := false, error := none }

/-- The resolved service reply for the Kitchen scenario. -/
def svcKitchen : Except Unit (Option String) := Except.ok (some "Put them in a drawer.")

/-- Claim C3 (code bug): with the Kitchen record selected,
`sendMessage("Where should I put my pots?")` does build the system
framing embedding `"Kitchen"` — but hands it to `ai.chats.create`
(App.tsx:148-155), whose returned `chat` object is never used; the one
completion request actually issued (`ai.models.generateContent`,
App.tsx:163-169) is passed only `model` and `contents`, so it carries
no system framing at all. -/
theorem chat_request_missing_system_framing :
    ∃ c : ChatCalls,
      (handleSendMessage svcKitchen sKitchen).snd = some c ∧
      (∃ pre suf, c.chatsCreateSystemInstruction = pre ++ "Kitchen" ++ suf) ∧
      c.generateContentSystemInstruction = none := by
  refine ⟨{ chatsCreateSystemInstruction := mkSystemFraming (some recKitchen),
            generateContentModel := MODEL_NAME,
            generateContentContents :=
              sKitchen.chatMessages ++
                [{ role := Role.user, text := "Where should I put my pots?" }],
            generateContentSystemInstruction := none }, ?_, ?_, rfl⟩
  · set_option maxRecDepth 8192 in decide
  · exact ⟨"You are an expert interior organizer. You are currently helping the user with their ",
           ". Use the previous analysis as context: " ++ recKitchen.suggestions, rfl⟩

/-- Claim C6: a send with non-empty trimmed text while not busy grows
the transcript by exactly two messages — the trimmed user message
followed by one assistant message whose text is the service reply when
it is non-empty, the fixed empty-reply fallback when the service
resolves with no text, and the fixed error fallback when the call
fails. -/
theorem send_message_appends_two
    (svc : Except Unit (Option String)) (s : AppState)
    (hne : jsTrim s.inputMessage ≠ "") (hc : s.isChatting = false) :
    ∃ a : String,
      (handleSendMessage svc s).fst.chatMessages =
        s.chatMessages ++
          [{ role := Role.user, text := jsTrim s.inputMessage },
           { role := Role.model, text := a }] ∧
      (handleSendMessage svc s).fst.chatMessages.length = s.chatMessages.length + 2 ∧
      (svc = Except.error () → a = chatErrorFallback) ∧
      (svc = Except.ok none → a = emptyReplyFallback) ∧
      (svc = Except.ok (some "") → a = emptyReplyFallback) ∧
      (∀ rt, svc = Except.ok (some rt) → rt ≠ "" → a = rt) := by
  cases svc with
  | error u =>
    refine ⟨chatErrorFallback, ?_, ?_, fun _ => rfl, ?_, ?_, ?_⟩
    · simp [handleSendMessage, sendBegin, hne, hc]
    · simp [handleSendMessage, sendBegin, hne, hc]
    · intro hco; exact Except.noConfusion hco
    · intro hco; exact Except.noConfusion hco
    · intro rt hco; exact absurd hco (fun hco => Except.noConfusion hco)
  | ok t =>
    cases t with
    | none =>
      refine ⟨emptyReplyFallback, ?_, ?_, ?_, fun _ => rfl, ?_, ?_⟩
      · simp [handleSendMessage, sendBegin, hne, hc, jsOr]
      · simp [handleSendMessage, sendBegin, hne, hc]
      · intro hco; exact Except.noConfusion hco
      · intro hco
        have h2 : (none : Option String) = some "" := by injection hco
        exact Option.noConfusion h2
      · intro rt hco
        have h2 : (none : Option String) = some rt := by injection hco
        exact fun _ => Option.noConfusion h2
    | some rt =>
      by_cases hrt : rt = ""
      · subst hrt
        refine ⟨emptyReplyFallback, ?_, ?_, ?_, ?_, fun _ => rfl, ?_⟩
        · simp [handleSendMessage, sendBegin, hne, hc, jsOr]
        · simp [handleSendMessage, sendBegin, hne, hc]
        · intro hco; exact Except.noConfusion hco
        · intro hco
          have h2 : (some "" : Option String) = none := by injection hco
          exact Option.noConfusion h2
        · intro rt2 hco hne2
          have h2 : (some "" : Option String) = some rt2 := by injection hco
          have h3 : "" = rt2 := by injection h2
          exact absurd h3.symm hne2
      · refine ⟨rt, ?_, ?_, ?_, ?_, ?_, ?_⟩
        · simp [handleSendMessage, sendBegin, hne, hc, jsOr, hrt]
        · simp [handleSendMessage, sendBegin, hne, hc]
        · intro hco; exact Except.noConfusion hco
        · intro hco
          have h2 : (some rt : Option String) = none := by injection hco
          exact Option.noConfusion h2
        · intro hco
          have h2 : (some rt : Option String) = some "" := by injection hco
          have h3 : rt = "" := by injection h2
          exact absurd h3 hrt
        · intro rt2 hco hne2
          have h2 : (some rt : Option String) = some rt2 := by injection hco
          have h3 : rt = rt2 := by injection h2
          exact h3

theorem send_message_appends_two_w :
    (jsTrim sKitchen.inputMessage ≠ "" ∧ sKitchen.isChatting = false) ∧
    ∃ a : String,
      (handleSendMessage svcKitchen sKitchen).fst.chatMessages =
        sKitchen.chatMessages ++
          [{ role := Role.user, text := jsTrim sKitchen.inputMessage },
           { role := Role.model, text := a }] ∧
      (handleSendMessage svcKitchen sKitchen).fst.chatMessages.length
        = sKitchen.chatMessages.length + 2 ∧
      (svcKitchen = Except.error () → a = chatErrorFallback) ∧
      (svcKitchen = Except.ok none → a = emptyReplyFallback) ∧
      (svcKitchen = Except.ok (some "") → a = emptyReplyFallback) ∧
      (∀ rt, svcKitchen = Except.ok (some rt) → rt ≠ "" → a = rt) :=
  ⟨⟨by decide, rfl⟩,
   send_message_appends_two svcKitchen sKitchen (by decide) rfl⟩

/-- A second record, not selected, sharing the gallery with the Kitchen
record; the transcript holds one message. -/
def recBedroom : AnalysisResult :=
  { id := "b1", imageUrl := "blob:b", timestamp := 6,
    suggestions := "Room Type: Bedroom\n\nSuggestions:\n- Use under-bed storage",
    roomType := "Bedroom" }

def sTwoRecords : AppState :=
  { images := [recKitchen, recBedroom], selectedImage := some recKitchen,
    isAnalyzing := false,
    chatMessages := [{ role := Role.model, text := greeting "Kitchen" }],
    inputMessage := "", isChatting := false, error := none }

/-- Claim C4 counterexample: clicking the Bedroom tile selects it but
the transcript is NOT cleared — the prior Kitchen chat survives,
contradicting the claim that selecting a record clears the
transcript. -/
theorem select_does_not_clear_transcript_cex :
    recBedroom ∈ sTwoRecords.images ∧
    (selectRecord recBedroom sTwoRecords).selectedImage = some recBedroom ∧
    (selectRecord recBedroom sTwoRecords).chatMessages ≠ [] ∧
    (selectRecord recBedroom sTwoRecords).chatMessages = sTwoRecords.chatMessages := by
  exact ⟨by decide, by decide, by decide, by decide⟩

/-- Claim C4 (amended): clicking a gallery record makes it the
selection and touches nothing else — in particular the transcript is
left unchanged (the prior chat persists across selection). -/
theorem select_sets_selection_keeps_transcript
    (img : AnalysisResult) (s : AppState) (_h : img ∈ s.images) :
    (selectRecord img s).selectedImage = some img ∧
    (selectRecord img s).chatMessages = s.chatMessages ∧
    (selectRecord img s).images = s.images :=
  ⟨rfl, rfl, rfl⟩

theorem select_sets_selection_keeps_transcript_w :
    recBedroom ∈ sTwoRecords.images ∧
    ((selectRecord recBedroom sTwoRecords).selectedImage = some recBedroom ∧
     (selectRecord recBedroom sTwoRecords).chatMessages = sTwoRecords.chatMessages ∧
     (selectRecord recBedroom sTwoRecords).images = sTwoRecords.images) :=
  ⟨by decide, select_sets_selection_keeps_transcript recBedroom sTwoRecords (by decide)⟩

/-- Claim C8: deleting by id removes every record with that id from the
gallery; when the selected record carries the deleted id the selection
and the transcript are cleared, otherwise both are untouched. -/
theorem delete_removes_and_conditionally_clears (rid : String) (s : AppState) :
    (deleteImage rid s).images = s.images.filter (fun img => img.id ≠ rid) ∧
    (∀ r ∈ (deleteImage rid s).images, r.id ≠ rid) ∧
    ((∃ sel, s.selectedImage = some sel ∧ sel.id = rid) →
      (deleteImage rid s).selectedImage = none ∧ (deleteImage rid s).chatMessages = []) ∧
    ((∀ sel, s.selectedImage = some sel → sel.id ≠ rid) →
      (deleteImage rid s).selectedImage = s.selectedImage ∧
      (deleteImage rid s).chatMessages = s.chatMessages) := by
  have himg : (deleteImage rid s).images = s.images.filter (fun img => img.id ≠ rid) := by
    cases hsel : s.selectedImage with
    | none => simp [deleteImage, hsel]
    | some sel =>
      by_cases hid : sel.id = rid
      · simp [deleteImage, hsel, hid]
      · simp [deleteImage, hsel, hid]
  refine ⟨himg, ?_, ?_, ?_⟩
  · intro r hr
    rw [himg] at hr
    have h2 := List.of_mem_filter hr
    simpa using h2
  · rintro ⟨sel, hsel, hid⟩
    constructor <;> simp [deleteImage, hsel, hid]
  · intro hall
    cases hsel : s.selectedImage with
    | none => constructor <;> simp [deleteImage, hsel]
    | some sel =>
      have hid : sel.id ≠ rid := hall sel hsel
      constructor <;> simp [deleteImage, hsel, hid]

theorem delete_removes_and_conditionally_clears_w :
    ((deleteImage "k1" sTwoRecords).images
        = sTwoRecords.images.filter (fun img => img.id ≠ "k1") ∧
      (deleteImage "k1" sTwoRecords).selectedImage = none ∧
      (deleteImage "k1" sTwoRecords).chatMessages = []) ∧
    ((deleteImage "b1" sTwoRecords).selectedImage = sTwoRecords.selectedImage ∧
      (deleteImage "b1" sTwoRecords).chatMessages = sTwoRecords.chatMessages) := by
  have h1 := delete_removes_and_conditionally_clears "k1" sTwoRecords
  have h2 := delete_removes_and_conditionally_clears "b1" sTwoRecords
  refine ⟨⟨h1.1, h1.2.2.1 ⟨recKitchen, rfl, rfl⟩⟩, h2.2.2.2 ?_⟩
  intro sel hsel
  have hk : sel = recKitchen := by
    have h3 := hsel
    simp [sTwoRecords] at h3
    exact h3.symm
  subst hk
  decide

end DeclutterAI
